import Mathlib

/-!
Shallow embedding of the `throttle_timer` crate.

The repository carries two revisions of the same timer:
* `src/src/lib.rs` — the current library (`ThrottleTimer` with `can_run`,
  `run_throttle_cb`, `run`, `run_wait`, `run_with_msg`, `wait_time`,
  `print_stats`);
* `src/lib.rs` — an earlier revision (`do_run`, `do_run_with_msg`,
  an unguarded `wait_time`), embedded here as `ThrottleTimerV0`.

Time model: monotonic `Instant`s and wall-clock `SystemTime`s are natural
number ticks; `Duration`s are natural numbers in the same unit.
`Instant::duration_since` saturates at zero (`Nat` subtraction).
`Duration` subtraction panics on underflow in Rust, so it is embedded as
`durSub` returning `Option`; `Option.unwrap` and integer division by zero
likewise surface as `none`, the embedding of a panic.
-/

namespace ThrottleSpec

/-- `Instant::duration_since`: saturating difference of monotonic ticks. -/
def durationSince (now earlier : Nat) : Nat := now - earlier

/-- Rust `Duration - Duration`: panics (here `none`) when the result would
be negative. -/
def durSub (a b : Nat) : Option Nat := if b ≤ a then some (a - b) else none

/-- The `ThrottleTimer` struct of `src/src/lib.rs`. -/
structure ThrottleTimer where
  maybe_last_called_time : Option Nat
  total_calls : Nat
  created_date : Nat
  max_frequency : Nat
  event_name : String
deriving Repr, DecidableEq

namespace ThrottleTimer

/-- `ThrottleTimer::new` from `src/src/lib.rs`; `now_wall` is the
`SystemTime::now()` captured at construction. -/
def new (max_frequency : Nat) (event_name : String) (now_wall : Nat) : ThrottleTimer :=
  { maybe_last_called_time := none
    max_frequency := max_frequency
    event_name := event_name
    total_calls := 0
    created_date := now_wall }

/-- `can_run` from `src/src/lib.rs`. It takes `&mut self` but its body only
reads fields, so the state-passing translation returns the state it was
given; `now` is the `Instant::now()` sampled inside the match. -/
def can_run (self : ThrottleTimer) (now : Nat) : Bool × ThrottleTimer :=
  (match self.maybe_last_called_time with
    | none => true
    | some last_time => decide (self.max_frequency ≤ durationSince now last_time),
   self)

/-- `run_throttle_cb` from `src/src/lib.rs`. The two `FnMut` callbacks are
state transformers on a caller-owned state `α`; `now` is the `Instant::now()`
sampled by `can_run` and `now2` the one sampled when storing the new
last-called time. Returns the flag, the updated timer and the callback state. -/
def run_throttle_cb {α : Type} (self : ThrottleTimer)
    (success throttled : α → α) (a : α) (now now2 : Nat) :
    Bool × ThrottleTimer × α :=
  let r := self.can_run now
  let run_flag : Bool := r.1
  let self := r.2
  if run_flag then
    (run_flag,
     { self with
         maybe_last_called_time := some now2
         total_calls := self.total_calls + 1 },
     success a)
  else
    (run_flag, self, throttled a)

/-- `run` from `src/src/lib.rs`: `run_throttle_cb` with a no-op throttled
callback. -/
def run {α : Type} (self : ThrottleTimer) (success : α → α) (a : α)
    (now now2 : Nat) : Bool × ThrottleTimer × α :=
  self.run_throttle_cb success (fun x => x) a now now2

/-- `wait_time` from `src/src/lib.rs`. The outer subtraction is Rust
`Duration` subtraction, embedded as `durSub` (`none` = panic on underflow). -/
def wait_time (self : ThrottleTimer) (now : Nat) : Option Nat :=
  match self.maybe_last_called_time with
  | none => some 0
  | some last_time =>
      durSub self.max_frequency (min (durationSince now last_time) self.max_frequency)

/-- Outcome of `print_stats` from `src/src/lib.rs`: either the printed
numbers (rate, total calls, elapsed) or the `Err` branch of
`created_date.elapsed()`. -/
inductive StatsOutcome where
  | printed (rate total_calls elapsed : Nat)
  | clockError
deriving Repr, DecidableEq

/-- `print_stats` from `src/src/lib.rs`. `now_wall` is the wall clock at the
call; `created_date.elapsed()` is `Ok` when the clock did not go backwards.
The `Ok` branch computes `created_time_elapsed.as_secs() / self.total_calls`
with `u64` division, which panics (`none`) when `total_calls = 0`. -/
def print_stats (self : ThrottleTimer) (now_wall : Nat) : Option StatsOutcome :=
  if self.created_date ≤ now_wall then
    let created_time_elapsed := now_wall - self.created_date
    if self.total_calls = 0 then
      none
    else
      some (.printed (created_time_elapsed / self.total_calls)
        self.total_calls created_time_elapsed)
  else
    some .clockError

/-- `run_wait` from `src/src/lib.rs`: sleeps for `wait_time`, then calls
`run_throttle_cb` with a no-op throttled callback and discards the flag.
`now'` and `now2'` are the post-sleep clock samples; the sleep contract
(`now + wait_time ≤ now'`) appears as a hypothesis of the theorems. -/
def run_wait {α : Type} (self : ThrottleTimer) (success : α → α) (a : α)
    (now' now2' : Nat) : ThrottleTimer × α :=
  let r := self.run_throttle_cb success (fun x => x) a now' now2'
  (r.2.1, r.2.2)

/-- `run_with_msg` from `src/src/lib.rs`. In the throttled branch the
message calls `self.maybe_last_called_time.unwrap()`; `none` embeds that
panic. `now3` is the `Instant::now()` sampled inside the message; the last
component is the printed `duration_since` value (absent when not throttled). -/
def run_with_msg {α : Type} (self : ThrottleTimer) (success : α → α) (a : α)
    (now now2 now3 : Nat) : Option (Bool × ThrottleTimer × α × Option Nat) :=
  let r := self.run success a now now2
  let did_run := r.1
  if did_run then
    some (did_run, r.2.1, r.2.2, none)
  else
    match r.2.1.maybe_last_called_time with
    | none => none
    | some last_time =>
        some (did_run, r.2.1, r.2.2, some (durationSince now3 last_time))

/-- Iterated gating: run `run_throttle_cb` (with no-op callbacks) once per
entry of `times`, threading the timer; returns the final timer and the list
of returned flags in call order. -/
def runSeq (self : ThrottleTimer) : List (Nat × Nat) → ThrottleTimer × List Bool
  | [] => (self, [])
  | t :: rest =>
      let r := self.run_throttle_cb (fun x : Unit => x) (fun x => x) () t.1 t.2
      let rec_ := r.2.1.runSeq rest
      (rec_.1, r.1 :: rec_.2)

end ThrottleTimer

/-- The `ThrottleTimer` struct of the earlier revision `src/lib.rs`
(field `frequency` instead of `max_frequency`). -/
structure ThrottleTimerV0 where
  maybe_last_called_time : Option Nat
  total_calls : Nat
  created_date : Nat
  frequency : Nat
  event_name : String
deriving Repr, DecidableEq

namespace ThrottleTimerV0

/-- `ThrottleTimer::new` from `src/lib.rs`. -/
def new (frequency : Nat) (event_name : String) (now_wall : Nat) : ThrottleTimerV0 :=
  { maybe_last_called_time := none
    frequency := frequency
    event_name := event_name
    total_calls := 0
    created_date := now_wall }

/-- `wait_time` from `src/lib.rs`:
`Instant::now().duration_since(self.maybe_last_called_time.unwrap()) - *self.frequency`.
`none` embeds a panic, from `unwrap` on a never-fired timer or from the
`Duration` subtraction underflowing. -/
def wait_time (self : ThrottleTimerV0) (now : Nat) : Option Nat :=
  match self.maybe_last_called_time with
  | none => none
  | some last_time => durSub (durationSince now last_time) self.frequency

/-- `do_run` from `src/lib.rs`: samples `now` once, uses it both for the
gating comparison and as the stored last-called time. -/
def do_run (self : ThrottleTimerV0) (now : Nat) : Bool × ThrottleTimerV0 :=
  let do_run_flag : Bool :=
    match self.maybe_last_called_time with
    | none => true
    | some last_time => decide (self.frequency ≤ durationSince now last_time)
  if do_run_flag then
    (do_run_flag,
     { self with
         maybe_last_called_time := some now
         total_calls := self.total_calls + 1 })
  else
    (do_run_flag, self)

end ThrottleTimerV0

/-- Field-wise correspondence between the two revisions
(`frequency` ↦ `max_frequency`). -/
def toCurrent (self : ThrottleTimerV0) : ThrottleTimer :=
  { maybe_last_called_time := self.maybe_last_called_time
    total_calls := self.total_calls
    created_date := self.created_date
    max_frequency := self.frequency
    event_name := self.event_name }

/-- Modelled from the spec: the remaining-wait formula of §4.1,
`interval - min(interval, now - last_fired)` if previously fired, else `0`. -/
def specWaitTime (self : ThrottleTimer) (now : Nat) : Nat :=
  match self.maybe_last_called_time with
  | none => 0
  | some last_time => self.max_frequency - min self.max_frequency (durationSince now last_time)

/-- Modelled from the spec: the firing policy of §4.1, permitted iff
`last_fired` is absent or `now - last_fired ≥ interval`. -/
def specMayFire (self : ThrottleTimer) (now : Nat) : Prop :=
  self.maybe_last_called_time = none ∨
    ∃ t, self.maybe_last_called_time = some t ∧
      self.max_frequency ≤ durationSince now t

instance (self : ThrottleTimer) (now : Nat) : Decidable (specMayFire self now) := by
  unfold specMayFire
  cases h : self.maybe_last_called_time with
  | none => exact .isTrue (Or.inl rfl)
  | some t =>
      by_cases hle : self.max_frequency ≤ durationSince now t
      · exact .isTrue (Or.inr ⟨t, rfl, hle⟩)
      · refine .isFalse ?_
        rintro (hnone | ⟨u, hu, hle2⟩)
        · exact Option.noConfusion hnone
        · cases hu
          exact hle hle2

/-! ### Helper lemmas -/

/-- One gating step changes `total_calls` by exactly the flag. -/
theorem run_throttle_cb_total_calls_step {α : Type} (self : ThrottleTimer)
    (success throttled : α → α) (a : α) (now now2 : Nat) :
    (self.run_throttle_cb success throttled a now now2).2.1.total_calls =
      self.total_calls +
        if (self.run_throttle_cb success throttled a now now2).1 then 1 else 0 := by
  obtain ⟨last, tc, cd, freq, name⟩ := self
  cases last with
  | none => simp [ThrottleTimer.run_throttle_cb, ThrottleTimer.can_run]
  | some t =>
      cases hle : decide (freq ≤ durationSince now t) <;>
        simp [ThrottleTimer.run_throttle_cb, ThrottleTimer.can_run, hle]

/-- The callback result of one gating step is `success a` when permitted
and `throttled a` when denied. -/
theorem run_throttle_cb_callback_step {α : Type} (self : ThrottleTimer)
    (success throttled : α → α) (a : α) (now now2 : Nat) :
    (self.run_throttle_cb success throttled a now now2).2.2 =
      if (self.run_throttle_cb success throttled a now now2).1
        then success a else throttled a := by
  obtain ⟨last, tc, cd, freq, name⟩ := self
  cases last with
  | none => simp [ThrottleTimer.run_throttle_cb, ThrottleTimer.can_run]
  | some t =>
      cases hle : decide (freq ≤ durationSince now t) <;>
        simp [ThrottleTimer.run_throttle_cb, ThrottleTimer.can_run, hle]

/-- One `do_run` step changes `total_calls` by exactly the flag. -/
theorem do_run_total_calls_step (self0 : ThrottleTimerV0) (now : Nat) :
    (self0.do_run now).2.total_calls =
      self0.total_calls + if (self0.do_run now).1 then 1 else 0 := by
  obtain ⟨last, tc, cd, freq, name⟩ := self0
  cases last with
  | none => simp [ThrottleTimerV0.do_run]
  | some t =>
      cases hle : decide (freq ≤ durationSince now t) <;>
        simp [ThrottleTimerV0.do_run, hle]

/-- Iterated gating accumulates: the final `total_calls` adds the number of
`true` flags. -/
theorem runSeq_total_calls (self : ThrottleTimer) (times : List (Nat × Nat)) :
    (self.runSeq times).1.total_calls =
      self.total_calls + (self.runSeq times).2.count true := by
  induction times generalizing self with
  | nil => simp [ThrottleTimer.runSeq]
  | cons t rest ih =>
      simp only [ThrottleTimer.runSeq]
      rw [ih, run_throttle_cb_total_calls_step]
      cases (self.run_throttle_cb (fun x : Unit => x) (fun x => x) () t.1 t.2).1 with
      | false => simp [List.count_cons]
      | true => simp [List.count_cons]; omega

/-- Splitting an iterated gating run at an append point. -/
theorem runSeq_append (self : ThrottleTimer) (l1 l2 : List (Nat × Nat)) :
    (self.runSeq (l1 ++ l2)).1 = ((self.runSeq l1).1.runSeq l2).1 := by
  induction l1 generalizing self with
  | nil => simp [ThrottleTimer.runSeq]
  | cons t rest ih => simp [ThrottleTimer.runSeq, ih]

/-! ### Claim theorems -/

/-- C1: for every interval (≥ 0, as all `Nat` durations are) and a freshly
constructed timer, the first gating call — `run_throttle_cb` in the current
revision, `do_run` in the earlier one — returns `true` and leaves
`total_calls` equal to 1. -/
theorem first_call_always_fires {α : Type} (freq : Nat) (name : String)
    (c now now2 : Nat) (success throttled : α → α) (a : α) :
    ((ThrottleTimer.new freq name c).run_throttle_cb success throttled a now now2).1 = true ∧
    ((ThrottleTimer.new freq name c).run_throttle_cb success throttled a now now2).2.1.total_calls = 1 ∧
    ((ThrottleTimerV0.new freq name c).do_run now).1 = true ∧
    ((ThrottleTimerV0.new freq name c).do_run now).2.total_calls = 1 := by
  refine ⟨?_, ?_, ?_, ?_⟩ <;>
    simp [ThrottleTimer.new, ThrottleTimer.run_throttle_cb, ThrottleTimer.can_run,
      ThrottleTimerV0.new, ThrottleTimerV0.do_run]

/-- C2: when gating is denied (a last-called time is set and less than the
interval has elapsed), the call returns `false` and every field of the timer
keeps its prior value, in both revisions. -/
theorem throttled_leaves_state_unchanged {α : Type} (self : ThrottleTimer)
    (self0 : ThrottleTimerV0) (t t0 now now2 : Nat)
    (success throttled : α → α) (a : α)
    (h : self.maybe_last_called_time = some t)
    (hlt : durationSince now t < self.max_frequency)
    (h0 : self0.maybe_last_called_time = some t0)
    (hlt0 : durationSince now t0 < self0.frequency) :
    (self.run_throttle_cb success throttled a now now2).1 = false ∧
    (self.run_throttle_cb success throttled a now now2).2.1 = self ∧
    (self0.do_run now).1 = false ∧
    (self0.do_run now).2 = self0 := by
  refine ⟨?_, ?_, ?_, ?_⟩ <;>
    simp [ThrottleTimer.run_throttle_cb, ThrottleTimer.can_run, h,
      Nat.not_le.mpr hlt, ThrottleTimerV0.do_run, h0, Nat.not_le.mpr hlt0]

/-- C2 witness: a concrete denied call leaves a concrete state untouched. -/
theorem throttled_leaves_state_unchanged_witness :
    ((⟨some 0, 1, 0, 5, "Break"⟩ : ThrottleTimer).run_throttle_cb
        (fun n : Nat => n + 1) (fun n => n) 0 2 2).1 = false ∧
    ((⟨some 0, 1, 0, 5, "Break"⟩ : ThrottleTimer).run_throttle_cb
        (fun n : Nat => n + 1) (fun n => n) 0 2 2).2.1 =
      (⟨some 0, 1, 0, 5, "Break"⟩ : ThrottleTimer) ∧
    ((⟨some 0, 1, 0, 5, "Break"⟩ : ThrottleTimerV0).do_run 2).1 = false ∧
    ((⟨some 0, 1, 0, 5, "Break"⟩ : ThrottleTimerV0).do_run 2).2 =
      (⟨some 0, 1, 0, 5, "Break"⟩ : ThrottleTimerV0) :=
  throttled_leaves_state_unchanged _ _ 0 0 2 2 _ _ 0
    rfl (by decide) rfl (by decide)

/-- C5: instrumenting the two callbacks with counters, `run_throttle_cb`
invokes exactly one of them, exactly once — `success` iff the call returns
`true`, `throttled` iff it returns `false` — and `run` invokes `success`
exactly once when it returns `true` and never when it returns `false`;
in general the callback state is `success a` when permitted and
`throttled a` when denied. -/
theorem callbacks_exactly_once {α : Type} (self : ThrottleTimer) (now now2 : Nat)
    (success throttled : α → α) (a : α) :
    ((self.run_throttle_cb (fun p : Nat × Nat => (p.1 + 1, p.2))
        (fun p => (p.1, p.2 + 1)) (0, 0) now now2).2.2 =
      if (self.run_throttle_cb (fun p : Nat × Nat => (p.1 + 1, p.2))
          (fun p => (p.1, p.2 + 1)) (0, 0) now now2).1 then (1, 0) else (0, 1)) ∧
    ((self.run (fun n : Nat => n + 1) 0 now now2).2.2 =
      if (self.run (fun n : Nat => n + 1) 0 now now2).1 then 1 else 0) ∧
    ((self.run_throttle_cb success throttled a now now2).2.2 =
      if (self.run_throttle_cb success throttled a now now2).1
        then success a else throttled a) := by
  refine ⟨?_, ?_, run_throttle_cb_callback_step self success throttled a now now2⟩
  · have h := run_throttle_cb_callback_step self
      (fun p : Nat × Nat => (p.1 + 1, p.2)) (fun p => (p.1, p.2 + 1)) (0, 0) now now2
    simpa using h
  · have h := run_throttle_cb_callback_step self
      (fun n : Nat => n + 1) (fun x => x) 0 now now2
    simpa [ThrottleTimer.run] using h

/-- C8: `can_run` is a pure query: it hands back the state unchanged and its
flag decides exactly the spec's firing policy (permitted iff never fired or
the interval has elapsed). -/
theorem can_run_pure_query (self : ThrottleTimer) (now : Nat) :
    (self.can_run now).2 = self ∧
    (self.can_run now).1 = decide (specMayFire self now) := by
  refine ⟨rfl, ?_⟩
  obtain ⟨last, tc, cd, freq, name⟩ := self
  cases last with
  | none => simp [ThrottleTimer.can_run, specMayFire]
  | some t =>
      simp only [ThrottleTimer.can_run, specMayFire]
      by_cases hle : freq ≤ durationSince now t <;> simp [hle]

/-- C10: the two revisions of the gating core agree: for every starting
state and a single current time, `do_run` (src/lib.rs) and
`run_throttle_cb` with no-op callbacks (src/src/lib.rs) return the same
flag and produce field-wise identical updated states. -/
theorem revisions_equivalent (self0 : ThrottleTimerV0) (now : Nat) :
    (self0.do_run now).1 =
      ((toCurrent self0).run_throttle_cb (fun x : Unit => x) (fun x => x) () now now).1 ∧
    toCurrent (self0.do_run now).2 =
      ((toCurrent self0).run_throttle_cb (fun x : Unit => x) (fun x => x) () now now).2.1 := by
  obtain ⟨last, tc, cd, freq, name⟩ := self0
  cases last with
  | none =>
      simp [ThrottleTimerV0.do_run, ThrottleTimer.run_throttle_cb,
        ThrottleTimer.can_run, toCurrent]
  | some t =>
      cases hle : decide (freq ≤ durationSince now t) <;>
        simp [ThrottleTimerV0.do_run, ThrottleTimer.run_throttle_cb,
          ThrottleTimer.can_run, toCurrent, hle]

/-- C3: the claim says `print_stats` never divides by zero, but the `Ok`
branch computes `created_time_elapsed.as_secs() / self.total_calls` with no
guard: on a freshly constructed timer (`total_calls = 0`) the `u64`
division panics. Evaluated here at that failing input. -/
theorem print_stats_divide_by_zero :
    (ThrottleTimer.new 10 "Break" 0).print_stats 5 = none := rfl

/-- C4 counterexample: the claim, which covers both revisions' `wait_time`,
fails on src/lib.rs: on a never-fired timer that `wait_time` unwraps `None`
and panics instead of returning 0. -/
theorem wait_time_v0_panics_when_never_fired :
    (ThrottleTimerV0.new 5 "Break" 0).wait_time 3 = none ∧
    ¬ (ThrottleTimerV0.new 5 "Break" 0).wait_time 3 = some 0 :=
  ⟨rfl, by decide⟩

/-- C4 (amended): in the current revision (src/src/lib.rs), `wait_time`
never panics and returns exactly the spec formula
`interval - min(interval, now - last_fired)` (0 when never fired); the
result is never negative, is at most the interval, and clamps to 0 once the
interval has fully elapsed. The src/lib.rs revision is excluded: its
`wait_time` panics on a never-fired timer. -/
theorem wait_time_spec (self : ThrottleTimer) (now : Nat) :
    self.wait_time now = some (specWaitTime self now) ∧
    specWaitTime self now ≤ self.max_frequency ∧
    (∀ t, self.maybe_last_called_time = some t →
      self.max_frequency ≤ durationSince now t → specWaitTime self now = 0) := by
  obtain ⟨last, tc, cd, freq, name⟩ := self
  cases last with
  | none =>
      refine ⟨rfl, Nat.zero_le _, ?_⟩
      intro t ht
      exact Option.noConfusion ht
  | some u =>
      have hb : min (durationSince now u) freq ≤ freq := Nat.min_le_right _ _
      refine ⟨?_, ?_, ?_⟩
      · simp [ThrottleTimer.wait_time, specWaitTime, durSub, hb, Nat.min_comm]
      · simp only [specWaitTime]
        omega
      · intro t ht hle
        injection ht with ht
        subst ht
        simp only [specWaitTime, durationSince] at *
        omega

/-- C4 witness: the amended statement applied at a fired timer whose
interval has fully elapsed. -/
theorem wait_time_spec_witness :
    (⟨some 0, 1, 0, 5, "Break"⟩ : ThrottleTimer).wait_time 7 =
      some (specWaitTime (⟨some 0, 1, 0, 5, "Break"⟩ : ThrottleTimer) 7) ∧
    specWaitTime (⟨some 0, 1, 0, 5, "Break"⟩ : ThrottleTimer) 7 = 0 :=
  ⟨(wait_time_spec (⟨some 0, 1, 0, 5, "Break"⟩ : ThrottleTimer) 7).1,
   (wait_time_spec (⟨some 0, 1, 0, 5, "Break"⟩ : ThrottleTimer) 7).2.2 0 rfl (by decide)⟩

/-- C6: under a monotonic clock (the stored last-called time precedes `now`),
sleeping for `wait_time` always satisfies the interval: the post-sleep
gating check is permitted, so `run_wait` invokes the action and increments
`total_calls` by exactly 1. `now'` is any post-sleep instant with
`now + wait_time ≤ now'`. -/
theorem run_wait_always_fires {α : Type} (self : ThrottleTimer) (success : α → α)
    (a : α) (now w now' now2' : Nat)
    (hmono : ∀ t, self.maybe_last_called_time = some t → t ≤ now)
    (hw : self.wait_time now = some w)
    (hsleep : now + w ≤ now') :
    (self.can_run now').1 = true ∧
    (self.run_wait success a now' now2').1.total_calls = self.total_calls + 1 ∧
    (self.run_wait success a now' now2').2 = success a := by
  obtain ⟨last, tc, cd, freq, name⟩ := self
  have hcan : ((ThrottleTimer.mk last tc cd freq name).can_run now').1 = true := by
    cases last with
    | none => rfl
    | some t =>
        have ht : t ≤ now := hmono t rfl
        simp only [ThrottleTimer.wait_time, durSub, durationSince] at hw
        rw [if_pos (Nat.min_le_right _ _)] at hw
        injection hw with hw
        simp only [ThrottleTimer.can_run, durationSince, decide_eq_true_eq]
        rcases Nat.le_total (now - t) freq with hmin | hmin
        · rw [Nat.min_eq_left hmin] at hw
          omega
        · rw [Nat.min_eq_right hmin] at hw
          omega
  have hcan' := hcan
  simp only [ThrottleTimer.can_run] at hcan'
  refine ⟨hcan, ?_, ?_⟩ <;>
    simp [ThrottleTimer.run_wait, ThrottleTimer.run_throttle_cb,
      ThrottleTimer.can_run, hcan']

/-- C6 witness: a fired timer with interval 5, last fire at 0, wait computed
at 2 (wait 3), woken at 5: the gate is open and the call fires. -/
theorem run_wait_always_fires_witness :
    ((⟨some 0, 1, 0, 5, "Tick"⟩ : ThrottleTimer).can_run 5).1 = true ∧
    ((⟨some 0, 1, 0, 5, "Tick"⟩ : ThrottleTimer).run_wait
        (fun n : Nat => n + 1) 0 5 6).1.total_calls = 1 + 1 ∧
    ((⟨some 0, 1, 0, 5, "Tick"⟩ : ThrottleTimer).run_wait
        (fun n : Nat => n + 1) 0 5 6).2 = (fun n : Nat => n + 1) 0 :=
  run_wait_always_fires (⟨some 0, 1, 0, 5, "Tick"⟩ : ThrottleTimer)
    (fun n : Nat => n + 1) 0 2 3 5 6
    (by intro t ht; injection ht with ht; omega) rfl (by decide)

/-- C7: over any sequence of gating calls, the final `total_calls` equals
the starting value plus the number of calls that returned `true`; it is
non-decreasing along every prefix of the sequence; and a single step — in
either revision — increments it by exactly 1 when permitted and never
otherwise. -/
theorem total_calls_counts_true_returns (self : ThrottleTimer)
    (times : List (Nat × Nat)) :
    (self.runSeq times).1.total_calls =
      self.total_calls + (self.runSeq times).2.count true ∧
    (∀ n, (self.runSeq (times.take n)).1.total_calls ≤
      (self.runSeq times).1.total_calls) ∧
    (∀ {α : Type} (success throttled : α → α) (a : α) (now now2 : Nat),
      (self.run_throttle_cb success throttled a now now2).2.1.total_calls =
        self.total_calls +
          if (self.run_throttle_cb success throttled a now now2).1 then 1 else 0) ∧
    (∀ (self0 : ThrottleTimerV0) (now : Nat),
      (self0.do_run now).2.total_calls =
        self0.total_calls + if (self0.do_run now).1 then 1 else 0) := by
  refine ⟨runSeq_total_calls self times, ?_, ?_, ?_⟩
  · intro n
    conv_rhs => rw [← List.take_append_drop n times]
    rw [runSeq_append,
      runSeq_total_calls ((self.runSeq (times.take n)).1) (times.drop n)]
    exact Nat.le_add_right _ _
  · intro α success throttled a now now2
    exact run_throttle_cb_total_calls_step self success throttled a now now2
  · intro self0 now
    exact do_run_total_calls_step self0 now

/-- C9: the `unwrap` of `maybe_last_called_time` in the throttled message
branch never panics: `run_with_msg` always returns a value, and in the
earlier revision, whenever `do_run` returns `false` the resulting state
still holds a last-called time for `do_run_with_msg` to unwrap. -/
theorem throttled_unwrap_never_panics {α : Type} (self : ThrottleTimer)
    (success : α → α) (a : α) (now now2 now3 : Nat) (self0 : ThrottleTimerV0) :
    (self.run_with_msg success a now now2 now3).isSome = true ∧
    ((self0.do_run now).1 = false →
      ((self0.do_run now).2.maybe_last_called_time).isSome = true) := by
  constructor
  · obtain ⟨last, tc, cd, freq, name⟩ := self
    cases last with
    | none =>
        simp [ThrottleTimer.run_with_msg, ThrottleTimer.run,
          ThrottleTimer.run_throttle_cb, ThrottleTimer.can_run]
    | some t =>
        cases hle : decide (freq ≤ durationSince now t) <;>
          simp [ThrottleTimer.run_with_msg, ThrottleTimer.run,
            ThrottleTimer.run_throttle_cb, ThrottleTimer.can_run, hle]
  · obtain ⟨last, tc, cd, freq, name⟩ := self0
    intro hfalse
    cases last with
    | none => simp [ThrottleTimerV0.do_run]
    | some t =>
        cases hle : decide (freq ≤ durationSince now t) <;>
          simp [ThrottleTimerV0.do_run, hle]

/-- C9 witness: a denied call on a concrete fired timer still carries a
last-called time, and `run_with_msg` returns a value there. -/
theorem throttled_unwrap_never_panics_witness :
    ((⟨some 0, 1, 0, 5, "Snack"⟩ : ThrottleTimer).run_with_msg
        (fun n : Nat => n + 1) 0 2 2 3).isSome = true ∧
    (((⟨some 0, 1, 0, 5, "Snack"⟩ : ThrottleTimerV0).do_run 2).2.maybe_last_called_time).isSome = true :=
  ⟨(throttled_unwrap_never_panics (⟨some 0, 1, 0, 5, "Snack"⟩ : ThrottleTimer)
      (fun n : Nat => n + 1) 0 2 2 3 (⟨some 0, 1, 0, 5, "Snack"⟩ : ThrottleTimerV0)).1,
   (throttled_unwrap_never_panics (⟨some 0, 1, 0, 5, "Snack"⟩ : ThrottleTimer)
      (fun n : Nat => n + 1) 0 2 2 3 (⟨some 0, 1, 0, 5, "Snack"⟩ : ThrottleTimerV0)).2
     (by decide)⟩

end ThrottleSpec
